import Mathlib

/-!
Verification of the snapshot-diffing core of the ceto repository
(src/green_data_analysis.py): a shallow embedding of the data model, the
similarity matcher, the diff engine, the per-category orchestration logic
and the snapshot loader, together with theorems settling the specified
properties.
-/

namespace Ceto

/-- Python round() applied to the exact rational num/den (den > 0):
rounds to the nearest integer, halves to the even neighbour. -/
def pyRound (num den : Nat) : Nat :=
  let q := num / den
  let r := num % den
  if 2 * r < den then q
  else if den < 2 * r then q + 1
  else if q % 2 = 0 then q else q + 1

/-- Length of a longest common subsequence of two character lists, with an
explicit fuel argument so the recursion is structural (and hence kernel
evaluable).  One unit of fuel is consumed per recursive step; since every
step shortens the combined length by at least one, fuel equal to the
combined length always suffices, and the fuel-exhausted branch is only
reachable when both lists are empty. -/
def lcsLenAux : Nat → List Char → List Char → Nat
  | 0, _, _ => 0
  | _ + 1, [], _ => 0
  | _ + 1, _ :: _, [] => 0
  | fuel + 1, a :: as, b :: bs =>
    if a = b then lcsLenAux fuel as bs + 1
    else max (lcsLenAux fuel (a :: as) bs) (lcsLenAux fuel as (b :: bs))

/-- Longest-common-subsequence length of two character lists. -/
def lcsLen (as bs : List Char) : Nat := lcsLenAux (as.length + bs.length) as bs

/-- thefuzz fuzz.ratio (as used at lines 142, 147 and 155 of
green_data_analysis.py): the normalized InDel similarity on a 0-100 scale,
int(round(100 * 2*lcs / (len1 + len2))), with Python round semantics
(half to even).  Two empty strings score 100. -/
def fuzz.ratio (s1 s2 : String) : Nat :=
  let total := s1.length + s2.length
  if total = 0 then 100
  else pyRound (200 * lcsLen s1.data s2.data) total

/-- Python truthiness of an Optional[str]: None and the empty string are
falsy, every other string is truthy. -/
def truthyStr : Option String → Bool
  | none => false
  | some s => !s.isEmpty

/-- Python str.lower (ASCII case mapping suffices for the data at hand). -/
def pyLower (s : String) : String := ⟨s.data.map Char.toLower⟩

/-- Unwraps an Optional[str] that the surrounding control flow has already
established to be present (the default is never reached in guarded uses). -/
def optStr (o : Option String) : String := o.getD ""

/-- An ISO calendar date, the result of a successful date.fromisoformat. -/
structure IsoDate where
  year : Nat
  month : Nat
  day : Nat
deriving DecidableEq

/-- WarehouseData dataclass (lines 11-14). -/
structure WarehouseData where
  location : Option String := none
  quantity_available : Option Int := none
deriving DecidableEq

/-- Size dataclass (lines 17-20); the float value is modelled as a rational
(no claim performs floating-point arithmetic on it). -/
structure Size where
  units : Option String := none
  value : Option Rat := none
deriving DecidableEq

/-- Price dataclass (lines 23-26). -/
structure Price where
  units : Option String := none
  value : Option Rat := none
deriving DecidableEq

/-- GreenData dataclass (lines 29-43), the offering record. -/
structure GreenData where
  name : Option String := none
  url : Option String := none
  importer : Option String := none
  farm : Option String := none
  country : Option String := none
  arrival : Option IsoDate := none
  cupping_notes : Option String := none
  variety : Option String := none
  quantity_available : List WarehouseData := []
  size : Option Size := none
  price : Option Price := none
  added : Option IsoDate := none
  removed : Option IsoDate := none
deriving DecidableEq

def SIMILARITY_THRESHOLD_NAME : Nat := 85

def SIMILARITY_THRESHOLD_COUNTRY : Nat := 95

def SIMILARITY_THRESHOLD_FARM : Nat := 80

/-- The name similarity computed at line 142. -/
def name_ratio (offering1 offering2 : GreenData) : Nat :=
  fuzz.ratio (pyLower (optStr offering1.name)) (pyLower (optStr offering2.name))

/-- The country similarity computed at line 147. -/
def country_ratio (offering1 offering2 : GreenData) : Nat :=
  fuzz.ratio (pyLower (optStr offering1.country)) (pyLower (optStr offering2.country))

/-- The farm similarity computed at line 155. -/
def farm_ratio (offering1 offering2 : GreenData) : Nat :=
  fuzz.ratio (pyLower (optStr offering1.farm)) (pyLower (optStr offering2.farm))

/-- The country block of are_offerings_similar (lines 146-152), including
its elif branch: true exactly when the block executes `return False`. -/
def country_veto (offering1 offering2 : GreenData) (name_similarity : Nat) : Bool :=
  if truthyStr offering1.country && truthyStr offering2.country then
    decide (country_ratio offering1 offering2 < SIMILARITY_THRESHOLD_COUNTRY) &&
      decide (name_similarity < SIMILARITY_THRESHOLD_NAME + 5)
  else if (truthyStr offering1.country && truthyStr offering2.country) &&
      offering1.country != offering2.country then
    true
  else
    false

/-- The farm block of are_offerings_similar (lines 154-157): true exactly
when the block executes `return False`.  The guard mirrors Python
truthiness of `farm` and of `farm.strip()`. -/
def farm_veto (offering1 offering2 : GreenData) : Bool :=
  if truthyStr offering1.farm && !(optStr offering1.farm).trim.isEmpty &&
      truthyStr offering2.farm && !(optStr offering2.farm).trim.isEmpty then
    decide (farm_ratio offering1 offering2 < SIMILARITY_THRESHOLD_FARM)
  else
    false

/-- are_offerings_similar (lines 137-159): early true on a falsy name,
then the name gate, then the country veto, then the farm veto. -/
def are_offerings_similar (offering1 offering2 : GreenData) : Bool :=
  if !truthyStr offering1.name || !truthyStr offering2.name then
    true
  else if name_ratio offering1 offering2 < SIMILARITY_THRESHOLD_NAME then
    false
  else if country_veto offering1 offering2 (name_ratio offering1 offering2) then
    false
  else if farm_veto offering1 offering2 then
    false
  else
    true

/-- Result shape of dataclasses.asdict on a WarehouseData (line 189). -/
structure WarehouseDict where
  location : Option String
  quantity_available : Option Int
deriving DecidableEq

/-- Result shape of dataclasses.asdict on a Size. -/
structure SizeDict where
  units : Option String
  value : Option Rat
deriving DecidableEq

/-- Result shape of dataclasses.asdict on a Price. -/
structure PriceDict where
  units : Option String
  value : Option Rat
deriving DecidableEq

/-- Result shape of dataclasses.asdict on a GreenData: a recursive copy of
every field into plain-dictionary form. -/
structure GreenDataDict where
  name : Option String
  url : Option String
  importer : Option String
  farm : Option String
  country : Option String
  arrival : Option IsoDate
  cupping_notes : Option String
  variety : Option String
  quantity_available : List WarehouseDict
  size : Option SizeDict
  price : Option PriceDict
  added : Option IsoDate
  removed : Option IsoDate
deriving DecidableEq

def WarehouseData.asdict (w : WarehouseData) : WarehouseDict :=
  ⟨w.location, w.quantity_available⟩

def Size.asdict (s : Size) : SizeDict := ⟨s.units, s.value⟩

def Price.asdict (p : Price) : PriceDict := ⟨p.units, p.value⟩

/-- dataclasses.asdict(new_item) as used at line 189: a derived
plain-dictionary copy of the record, fields copied recursively. -/
def GreenData.asdict (g : GreenData) : GreenDataDict :=
  ⟨g.name, g.url, g.importer, g.farm, g.country, g.arrival, g.cupping_notes,
    g.variety, g.quantity_available.map WarehouseData.asdict,
    g.size.map Size.asdict, g.price.map Price.asdict, g.added, g.removed⟩

/-- A snapshot: an insertion-ordered mapping from source key to the list of
offering records under it (Python dicts preserve insertion order). -/
abbrev Snapshot := List (String × List GreenData)

/-- Python old_data.get(site_url, []) at line 169. -/
def snapGet (snap : Snapshot) (site_url : String) : List GreenData :=
  match snap.find? (fun p => p.1 == site_url) with
  | some p => p.2
  | none => []

/-- One entry of the new-offerings report built by compare_coffee_data
(lines 187-190). -/
structure ReportEntry where
  source_site : String
  offering : GreenDataDict
deriving DecidableEq

/-- The inner loop over old_offerings_list (lines 178-184): true exactly
when some named old record is similar to the new record, i.e. when
is_truly_new ends up False. -/
def blocks (new_item : GreenData) (old_offerings_list : List GreenData) : Bool :=
  old_offerings_list.any fun old_item =>
    truthyStr old_item.name && are_offerings_similar new_item old_item

/-- compare_coffee_data (lines 162-192): per source key of the new
snapshot, fetch the old list (default empty), skip the key when that list
is falsy, skip unnamed new records, and report each remaining record that
no named old record blocks, storing an asdict copy. -/
def compare_coffee_data (old_data new_data : Snapshot) : List ReportEntry :=
  new_data.flatMap fun p =>
    let old_offerings_list := snapGet old_data p.1
    if old_offerings_list.isEmpty then []
    else
      p.2.filterMap fun new_item =>
        if !truthyStr new_item.name then none
        else if blocks new_item old_offerings_list then none
        else some ⟨p.1, new_item.asdict⟩

/-- One entry of the combined report built by main_comparison
(lines 229-233 and 236-241). -/
structure CombinedEntry where
  source_file_type : String
  source_document : String
  offering : GreenDataDict
deriving DecidableEq

/-- The per-category core of main_comparison (lines 201-241), as a pure
function of the outcome of the file-system interaction: `latest` (resp.
`prior`) is none when find_latest_json_files returned no latest (resp. no
second-latest) path, and `some d` when it returned a path whose
load_coffee_data_from_file result is d.  No latest file: the category is
skipped.  A latest file but no prior file: the category is skipped
(lines 215-216).  A prior file that loaded an empty snapshot: every named
record of the latest snapshot is reported, without similarity evaluation
(lines 224-233).  Otherwise the diff engine runs (lines 235-241). -/
def main_comparison_category (source_type : String)
    (latest prior : Option Snapshot) : List CombinedEntry :=
  match latest with
  | none => []
  | some latest_data =>
    match prior with
    | none => []
    | some prior_data =>
      if prior_data.isEmpty then
        latest_data.flatMap fun p =>
          p.2.filterMap fun item =>
            if truthyStr item.name then
              some ⟨source_type, p.1, item.asdict⟩
            else none
      else
        (compare_coffee_data prior_data latest_data).map fun e =>
          ⟨source_type, e.source_site, e.offering⟩

/-- A parsed JSON value as json.load returns it (numbers that matter to
the claims are integers; Python's lack of a separate null/bool/number
check in the loader makes the exact numeric representation irrelevant). -/
inductive PyVal where
  | null
  | bool (b : Bool)
  | int (n : Int)
  | str (s : String)
  | list (items : List PyVal)
  | dict (entries : List (String × PyVal))

def PyVal.isDict : PyVal → Bool
  | .dict _ => true
  | _ => false

/-- Python data_dict.get(key): the stored value, or None when absent. -/
def dictFind (d : List (String × PyVal)) (key : String) : Option PyVal :=
  match d.find? (fun p => p.1 == key) with
  | some p => some p.2
  | none => none

/-- Python data_dict.get(key) collapsed to a PyVal (absent -> null). -/
def dictGet (d : List (String × PyVal)) (key : String) : PyVal :=
  (dictFind d key).getD PyVal.null

/-- A WarehouseData as the loader actually builds it: dataclass fields are
plain attributes, so whatever value the JSON held is stored unchecked. -/
structure RawWarehouseData where
  location : PyVal
  quantity_available : PyVal

structure RawSize where
  units : PyVal
  value : PyVal

structure RawPrice where
  units : PyVal
  value : PyVal

/-- A GreenData as _dict_to_greendata actually builds it: string-annotated
fields store the raw JSON value unchecked, date fields go through
_parse_iso_date, and the three recognized sub-objects are typed. -/
structure RawGreenData where
  name : PyVal
  url : PyVal
  importer : PyVal
  farm : PyVal
  country : PyVal
  arrival : Option IsoDate
  cupping_notes : PyVal
  variety : PyVal
  quantity_available : List RawWarehouseData
  size : Option RawSize
  price : Option RawPrice
  added : Option IsoDate
  removed : Option IsoDate

def isLeapYear (y : Nat) : Bool :=
  (y % 4 == 0 && y % 100 != 0) || y % 400 == 0

def daysInMonth (y m : Nat) : Nat :=
  if m = 2 then (if isLeapYear y then 29 else 28)
  else if m = 4 ∨ m = 6 ∨ m = 9 ∨ m = 11 then 30
  else 31

def digitVal (c : Char) : Nat := c.toNat - 48

/-- date.fromisoformat restricted to the YYYY-MM-DD form the snapshots
use: ten characters, dashes at positions 4 and 7, digits elsewhere, and a
valid calendar month/day.  Any other string is a ValueError. -/
def date_fromisoformat (s : String) : Option IsoDate :=
  match s.data with
  | [y1, y2, y3, y4, sep1, m1, m2, sep2, d1, d2] =>
    if sep1 = '-' ∧ sep2 = '-' ∧ y1.isDigit ∧ y2.isDigit ∧ y3.isDigit ∧
        y4.isDigit ∧ m1.isDigit ∧ m2.isDigit ∧ d1.isDigit ∧ d2.isDigit then
      let year := 1000 * digitVal y1 + 100 * digitVal y2 + 10 * digitVal y3 + digitVal y4
      let month := 10 * digitVal m1 + digitVal m2
      let day := 10 * digitVal d1 + digitVal d2
      if 1 ≤ month ∧ month ≤ 12 ∧ 1 ≤ day ∧ day ≤ daysInMonth year month then
        some ⟨year, month, day⟩
      else none
    else none
  | _ => none

/-- _parse_iso_date (lines 50-59): a falsy value returns None directly; a
non-string raises TypeError inside date.fromisoformat and an unparseable
string raises ValueError, both caught and turned into None. -/
def _parse_iso_date (v : PyVal) : Option IsoDate :=
  match v with
  | .str s => if s.isEmpty then none else date_fromisoformat s
  | _ => none

/-- WarehouseData(**kw) (line 73): Python rejects any keyword that is not
a declared field with a TypeError; declared fields default to None. -/
def mkWarehouseData (kw : List (String × PyVal)) : Except String RawWarehouseData :=
  if kw.all (fun p => p.1 == "location" || p.1 == "quantity_available") then
    .ok ⟨dictGet kw "location", dictGet kw "quantity_available"⟩
  else .error "TypeError: unexpected keyword argument"

/-- Size(**kw) (line 75). -/
def mkSize (kw : List (String × PyVal)) : Except String RawSize :=
  if kw.all (fun p => p.1 == "units" || p.1 == "value") then
    .ok ⟨dictGet kw "units", dictGet kw "value"⟩
  else .error "TypeError: unexpected keyword argument"

/-- Price(**kw) (line 76). -/
def mkPrice (kw : List (String × PyVal)) : Except String RawPrice :=
  if kw.all (fun p => p.1 == "units" || p.1 == "value") then
    .ok ⟨dictGet kw "units", dictGet kw "value"⟩
  else .error "TypeError: unexpected keyword argument"

/-- isinstance(x, dict) filter used at lines 73-74 and 101. -/
def asKwDict : PyVal → Option (List (String × PyVal))
  | .dict d => some d
  | _ => none

/-- Iteration of data_dict.get('quantity_available', []) keeping only dict
elements (lines 73-74).  An absent key iterates the [] default; iterating
a string yields one-character strings and iterating a dict yields its
string keys, neither of which pass isinstance(wh, dict); a null, bool or
number is not iterable and raises an uncaught TypeError. -/
def qaEntries (data_dict : List (String × PyVal)) :
    Except String (List (List (String × PyVal))) :=
  match dictFind data_dict "quantity_available" with
  | none => .ok []
  | some (.list items) => .ok (items.filterMap asKwDict)
  | some (.str _) => .ok []
  | some (.dict _) => .ok []
  | some _ => .error "TypeError: not iterable"

/-- The size expression at line 75: None unless the stored value is a
truthy dict, in which case Size(**value) runs (and can raise). -/
def sizeField (data_dict : List (String × PyVal)) : Except String (Option RawSize) :=
  match dictGet data_dict "size" with
  | .dict kw => if kw.isEmpty then .ok none else (mkSize kw).map some
  | _ => .ok none

/-- The price expression at line 76. -/
def priceField (data_dict : List (String × PyVal)) : Except String (Option RawPrice) :=
  match dictGet data_dict "price" with
  | .dict kw => if kw.isEmpty then .ok none else (mkPrice kw).map some
  | _ => .ok none

/-- _dict_to_greendata (lines 62-79).  An error value models an uncaught
exception escaping the function (nothing in the loader catches it). -/
def _dict_to_greendata (data_dict : List (String × PyVal)) :
    Except String RawGreenData :=
  match qaEntries data_dict with
  | .error e => .error e
  | .ok kws =>
    match kws.mapM mkWarehouseData with
    | .error e => .error e
    | .ok qa =>
      match sizeField data_dict with
      | .error e => .error e
      | .ok size_v =>
        match priceField data_dict with
        | .error e => .error e
        | .ok price_v =>
          .ok { name := dictGet data_dict "name"
                url := dictGet data_dict "url"
                importer := dictGet data_dict "importer"
                farm := dictGet data_dict "farm"
                country := dictGet data_dict "country"
                arrival := _parse_iso_date (dictGet data_dict "arrival")
                cupping_notes := dictGet data_dict "cupping_notes"
                variety := dictGet data_dict "variety"
                quantity_available := qa
                size := size_v
                price := price_v
                added := _parse_iso_date (dictGet data_dict "added")
                removed := _parse_iso_date (dictGet data_dict "removed") }

/-- Outcome of opening and json.load-ing the snapshot file: the file may
be missing (FileNotFoundError), unparseable (JSONDecodeError), or parse to
a JSON value. -/
inductive FileRead where
  | missing
  | unparseable
  | parsed (v : PyVal)

abbrev RawSnapshot := List (String × List RawGreenData)

/-- load_coffee_data_from_file (lines 82-102): a missing or unparseable
file yields the empty snapshot; a non-dict top level crashes on
raw_data.items(); per key, a non-list value is replaced by the empty list,
and a list is converted element-wise, keeping only dict elements. -/
def load_coffee_data_from_file : FileRead → Except String RawSnapshot
  | .missing => .ok []
  | .unparseable => .ok []
  | .parsed (.dict entries) =>
    entries.mapM fun p =>
      match p.2 with
      | .list offerings =>
        ((offerings.filterMap asKwDict).mapM _dict_to_greendata).map
          fun gs => (p.1, gs)
      | _ => .ok (p.1, [])
  | .parsed _ => .error "AttributeError: items"

/-! ### Helper lemmas -/

theorem lcsLenAux_comm (fuel : Nat) :
    ∀ as bs, lcsLenAux fuel as bs = lcsLenAux fuel bs as := by
  induction fuel with
  | zero => intro as bs; rfl
  | succ n ih =>
    intro as bs
    match as, bs with
    | [], [] => rfl
    | [], _ :: _ => rfl
    | _ :: _, [] => rfl
    | a :: as1, b :: bs1 =>
      simp only [lcsLenAux]
      by_cases h : a = b
      · subst h
        simp [ih as1 bs1]
      · have h2 : ¬b = a := fun e => h e.symm
        rw [if_neg h, if_neg h2, ih (a :: as1) bs1, ih as1 (b :: bs1),
          Nat.max_comm]

theorem lcsLen_comm (as bs : List Char) : lcsLen as bs = lcsLen bs as := by
  unfold lcsLen
  rw [Nat.add_comm as.length bs.length, lcsLenAux_comm]

theorem fuzz.ratio_comm (s t : String) : fuzz.ratio s t = fuzz.ratio t s := by
  simp only [fuzz.ratio]
  rw [lcsLen_comm, Nat.add_comm s.length t.length]

theorem name_ratio_comm (o1 o2 : GreenData) :
    name_ratio o1 o2 = name_ratio o2 o1 := fuzz.ratio_comm _ _

theorem country_ratio_comm (o1 o2 : GreenData) :
    country_ratio o1 o2 = country_ratio o2 o1 := fuzz.ratio_comm _ _

theorem farm_ratio_comm (o1 o2 : GreenData) :
    farm_ratio o1 o2 = farm_ratio o2 o1 := fuzz.ratio_comm _ _

theorem country_veto_comm (o1 o2 : GreenData) (n : Nat) :
    country_veto o1 o2 n = country_veto o2 o1 n := by
  unfold country_veto
  cases h1 : truthyStr o1.country <;> cases h2 : truthyStr o2.country <;>
    simp [h1, h2, country_ratio_comm o1 o2]

theorem farm_veto_comm (o1 o2 : GreenData) :
    farm_veto o1 o2 = farm_veto o2 o1 := by
  unfold farm_veto
  cases h1 : truthyStr o1.farm <;> cases h2 : truthyStr o2.farm <;>
    cases h3 : (optStr o1.farm).trim.isEmpty <;>
      cases h4 : (optStr o2.farm).trim.isEmpty <;>
        simp [h1, h2, h3, h4, farm_ratio_comm o1 o2]

/-! ### Sample records used by closed witnesses and counterexamples -/

def brazilSantos : GreenData := { name := some "Brazil Santos" }

def kenyaAA : GreenData := { name := some "Kenya AA" }

def kenyaAB : GreenData := { name := some "Kenya AB" }

def sampleAaaa : GreenData := { name := some "aaaa" }

def sampleZzzz : GreenData := { name := some "zzzz" }

def sampleKenyaLot : GreenData :=
  { name := some "aaaabbbb", country := some "kenya" }

def sampleBrazilLot : GreenData :=
  { name := some "aaaacccc", country := some "brazil" }

/-! ### Claim theorems -/

/-- C9: the similarity matcher is symmetric: for every pair of offering
records a and b, are_offerings_similar a b equals are_offerings_similar
b a. -/
theorem are_offerings_similar_comm (a b : GreenData) :
    are_offerings_similar a b = are_offerings_similar b a := by
  unfold are_offerings_similar
  rw [name_ratio_comm b a, country_veto_comm b a, farm_veto_comm b a]
  cases hA : truthyStr a.name <;> cases hB : truthyStr b.name <;>
    simp [hA, hB]

/-- The country block of are_offerings_similar with the dead elif branch
(lines 151-152) removed. -/
def country_veto_noelif (offering1 offering2 : GreenData)
    (name_similarity : Nat) : Bool :=
  if truthyStr offering1.country && truthyStr offering2.country then
    decide (country_ratio offering1 offering2 < SIMILARITY_THRESHOLD_COUNTRY) &&
      decide (name_similarity < SIMILARITY_THRESHOLD_NAME + 5)
  else
    false

/-- are_offerings_similar with the elif branch of lines 151-152 removed. -/
def are_offerings_similar_noelif (offering1 offering2 : GreenData) : Bool :=
  if !truthyStr offering1.name || !truthyStr offering2.name then
    true
  else if name_ratio offering1 offering2 < SIMILARITY_THRESHOLD_NAME then
    false
  else if country_veto_noelif offering1 offering2 (name_ratio offering1 offering2) then
    false
  else if farm_veto offering1 offering2 then
    false
  else
    true

theorem country_veto_eq_noelif (o1 o2 : GreenData) (n : Nat) :
    country_veto o1 o2 n = country_veto_noelif o1 o2 n := by
  unfold country_veto country_veto_noelif
  cases h : (truthyStr o1.country && truthyStr o2.country) <;> simp [h]

/-- C10: the elif branch at lines 151-152 is unreachable: its guard
repeats the condition whose falsity is required to reach it, so the
matcher is extensionally equal to the same function with that branch
removed. -/
theorem elif_branch_unreachable (offering1 offering2 : GreenData) :
    are_offerings_similar offering1 offering2 =
      are_offerings_similar_noelif offering1 offering2 := by
  unfold are_offerings_similar are_offerings_similar_noelif
  rw [country_veto_eq_noelif]

/-- C4: whenever at least one record's name is absent, the matcher
declares the two records similar, regardless of every other field. -/
theorem similar_of_missing_name (offering1 offering2 : GreenData)
    (h : offering1.name = none ∨ offering2.name = none) :
    are_offerings_similar offering1 offering2 = true := by
  unfold are_offerings_similar
  rcases h with h | h <;> simp [h, truthyStr]

theorem similar_of_missing_name_witness :
    are_offerings_similar { name := none, country := some "Kenya" }
      sampleBrazilLot = true :=
  similar_of_missing_name _ _ (Or.inl rfl)

/-- C6: for records that both carry a (truthy) name, a name similarity
ratio below the threshold of 85 makes the matcher return false, regardless
of every other field. -/
theorem name_below_threshold_not_similar (offering1 offering2 : GreenData)
    (h1 : truthyStr offering1.name = true) (h2 : truthyStr offering2.name = true)
    (h : name_ratio offering1 offering2 < SIMILARITY_THRESHOLD_NAME) :
    are_offerings_similar offering1 offering2 = false := by
  unfold are_offerings_similar
  simp [h1, h2, h]

theorem name_below_threshold_not_similar_witness :
    truthyStr sampleAaaa.name = true ∧
      name_ratio sampleAaaa sampleZzzz < SIMILARITY_THRESHOLD_NAME ∧
      are_offerings_similar sampleAaaa sampleZzzz = false :=
  ⟨by decide, by decide,
    name_below_threshold_not_similar _ _ (by decide) (by decide) (by decide)⟩

/-- C5: for records both carrying truthy names, (i) a country ratio below
95 together with a name ratio below 90 makes the matcher return false;
(ii) with a name ratio of at least 90 a country ratio below 95 does not
veto: the outcome is decided by the farm veto alone; (iii) when the two
records do not both carry a truthy country, the country check is skipped:
the outcome is the name gate followed by the farm veto. -/
theorem country_check_policy (offering1 offering2 : GreenData)
    (h1 : truthyStr offering1.name = true)
    (h2 : truthyStr offering2.name = true) :
    ((truthyStr offering1.country && truthyStr offering2.country) = true →
      country_ratio offering1 offering2 < SIMILARITY_THRESHOLD_COUNTRY →
      name_ratio offering1 offering2 < SIMILARITY_THRESHOLD_NAME + 5 →
      are_offerings_similar offering1 offering2 = false) ∧
    ((truthyStr offering1.country && truthyStr offering2.country) = true →
      country_ratio offering1 offering2 < SIMILARITY_THRESHOLD_COUNTRY →
      SIMILARITY_THRESHOLD_NAME + 5 ≤ name_ratio offering1 offering2 →
      are_offerings_similar offering1 offering2 =
        !farm_veto offering1 offering2) ∧
    ((truthyStr offering1.country && truthyStr offering2.country) = false →
      are_offerings_similar offering1 offering2 =
        (if name_ratio offering1 offering2 < SIMILARITY_THRESHOLD_NAME then
          false
        else !farm_veto offering1 offering2)) := by
  refine ⟨fun hc hcr hnr => ?_, fun hc hcr hnr => ?_, fun hc => ?_⟩
  · unfold are_offerings_similar
    by_cases hn : name_ratio offering1 offering2 < SIMILARITY_THRESHOLD_NAME
    · simp [h1, h2, hn]
    · have hveto : country_veto offering1 offering2
          (name_ratio offering1 offering2) = true := by
        unfold country_veto
        simp [hc, hcr, hnr]
      simp [h1, h2, hn, hveto]
  · have hn : ¬name_ratio offering1 offering2 < SIMILARITY_THRESHOLD_NAME := by
      unfold SIMILARITY_THRESHOLD_NAME at hnr ⊢
      omega
    have hveto : country_veto offering1 offering2
        (name_ratio offering1 offering2) = false := by
      unfold country_veto
      simp [hc]
      omega
    unfold are_offerings_similar
    rw [if_neg (by simp [h1, h2]), if_neg hn, hveto]
    cases hf : farm_veto offering1 offering2 <;> simp [hf]
  · have hveto : country_veto offering1 offering2
        (name_ratio offering1 offering2) = false := by
      unfold country_veto
      simp [hc]
    unfold are_offerings_similar
    rw [if_neg (by simp [h1, h2])]
    by_cases hn : name_ratio offering1 offering2 < SIMILARITY_THRESHOLD_NAME
    · simp [hn]
    · rw [if_neg hn, hveto]
      cases hf : farm_veto offering1 offering2 <;> simp [hf, hn]

theorem country_check_policy_witness :
    (truthyStr sampleKenyaLot.country && truthyStr sampleBrazilLot.country) = true ∧
      country_ratio sampleKenyaLot sampleBrazilLot < SIMILARITY_THRESHOLD_COUNTRY ∧
      name_ratio sampleKenyaLot sampleBrazilLot < SIMILARITY_THRESHOLD_NAME + 5 ∧
      are_offerings_similar sampleKenyaLot sampleBrazilLot = false :=
  ⟨by decide, by decide, by decide,
    (country_check_policy sampleKenyaLot sampleBrazilLot (by decide)
      (by decide)).1 (by decide) (by decide) (by decide)⟩

/-- C7: with an old snapshot holding only Kenya AA and a new snapshot
holding only Kenya AB under the same key, the single-character name
difference scores 88 (100 times 14/16 rounded), which clears the name
threshold of 85, so the records match and the diff yields no new
entries. -/
theorem kenya_aa_ab_no_new_entries :
    name_ratio kenyaAA kenyaAB = 88 ∧
      SIMILARITY_THRESHOLD_NAME ≤ name_ratio kenyaAA kenyaAB ∧
      compare_coffee_data [("siteA", [kenyaAA])] [("siteA", [kenyaAB])] = [] :=
  ⟨by decide, by decide, by decide⟩

/-! ### Injectivity of the asdict copies and diff-engine lemmas -/

theorem warehouse_asdict_injective : Function.Injective WarehouseData.asdict := by
  intro a b h
  cases a
  cases b
  simp only [WarehouseData.asdict, WarehouseDict.mk.injEq] at h
  simp [WarehouseData.mk.injEq, h]

theorem size_asdict_injective : Function.Injective Size.asdict := by
  intro a b h
  cases a
  cases b
  simp only [Size.asdict, SizeDict.mk.injEq] at h
  simp [Size.mk.injEq, h]

theorem price_asdict_injective : Function.Injective Price.asdict := by
  intro a b h
  cases a
  cases b
  simp only [Price.asdict, PriceDict.mk.injEq] at h
  simp [Price.mk.injEq, h]

theorem greendata_asdict_injective : Function.Injective GreenData.asdict := by
  intro a b h
  cases a
  cases b
  simp only [GreenData.asdict, GreenDataDict.mk.injEq] at h
  obtain ⟨h1, h2, h3, h4, h5, h6, h7, h8, h9, h10, h11, h12, h13⟩ := h
  simp only [GreenData.mk.injEq]
  exact ⟨h1, h2, h3, h4, h5, h6, h7, h8,
    List.map_injective_iff.mpr warehouse_asdict_injective h9,
    Option.map_injective size_asdict_injective h10,
    Option.map_injective price_asdict_injective h11, h12, h13⟩

/-- Zeta-reduced form of compare_coffee_data, convenient for membership
reasoning. -/
theorem compare_coffee_data_eq (old_data new_data : Snapshot) :
    compare_coffee_data old_data new_data =
      new_data.flatMap fun p =>
        if (snapGet old_data p.1).isEmpty then []
        else
          p.2.filterMap fun new_item =>
            if !truthyStr new_item.name then none
            else if blocks new_item (snapGet old_data p.1) then none
            else some ⟨p.1, new_item.asdict⟩ := rfl

/-- C8: every entry of the diff report is a derived asdict copy of a
record of the new snapshot, under that record's source key; the embedding
is a pure function of its two snapshot arguments, which the diff never
modifies. -/
theorem compare_coffee_data_derived_copies (old_data new_data : Snapshot)
    (e : ReportEntry) (he : e ∈ compare_coffee_data old_data new_data) :
    ∃ site_url offerings new_item,
      (site_url, offerings) ∈ new_data ∧ new_item ∈ offerings ∧
        e = ⟨site_url, new_item.asdict⟩ := by
  rw [compare_coffee_data_eq, List.mem_flatMap] at he
  obtain ⟨⟨site_url, offerings⟩, hp, he⟩ := he
  refine ⟨site_url, offerings, ?_⟩
  split at he
  · exact absurd he (List.not_mem_nil e)
  · rw [List.mem_filterMap] at he
    obtain ⟨item, hItem, hEq⟩ := he
    split at hEq
    · exact absurd hEq (by simp)
    · split at hEq
      · exact absurd hEq (by simp)
      · exact ⟨item, hp, hItem, (Option.some_injective _ hEq).symm⟩

theorem compare_coffee_data_derived_copies_witness :
    (⟨"s", sampleZzzz.asdict⟩ : ReportEntry) ∈
        compare_coffee_data [("s", [sampleAaaa])] [("s", [sampleZzzz])] ∧
      ∃ site_url offerings new_item,
        (site_url, offerings) ∈ ([("s", [sampleZzzz])] : Snapshot) ∧
          new_item ∈ offerings ∧
          (⟨"s", sampleZzzz.asdict⟩ : ReportEntry) = ⟨site_url, new_item.asdict⟩ :=
  ⟨by decide,
    compare_coffee_data_derived_copies [("s", [sampleAaaa])]
      [("s", [sampleZzzz])] ⟨"s", sampleZzzz.asdict⟩ (by decide)⟩

/-- C2 counterexample: the old snapshot maps the key to the empty list,
the new snapshot holds a named record under that key which no old record
blocks, yet the diff reports nothing — the key is skipped (line 170-171),
contradicting the claim that every named new record under an empty-list
key is reported as new. -/
theorem compare_empty_old_counterexample :
    truthyStr brazilSantos.name = true ∧
      blocks brazilSantos (snapGet [("siteA", [])] "siteA") = false ∧
      compare_coffee_data [("siteA", [])] [("siteA", [brazilSantos])] = [] :=
  ⟨by decide, by decide, by decide⟩

/-- C2 amended: for a source key present in both snapshots, when the old
snapshot maps the key to a non-empty record list, a named new-snapshot
record appears in the diff report if and only if no old record with a
truthy name satisfies the matcher against it; when the old list is empty
(or the key is absent from the old snapshot), the key is skipped and
contributes no report entries. -/
theorem compare_new_record_iff (old_data new_data : Snapshot)
    (site_url : String) (new_offerings : List GreenData)
    (new_item : GreenData)
    (hmem : (site_url, new_offerings) ∈ new_data)
    (hitem : new_item ∈ new_offerings)
    (hname : truthyStr new_item.name = true) :
    ((⟨site_url, new_item.asdict⟩ : ReportEntry) ∈
        compare_coffee_data old_data new_data) ↔
      ((snapGet old_data site_url).isEmpty = false ∧
        blocks new_item (snapGet old_data site_url) = false) := by
  constructor
  · intro hin
    rw [compare_coffee_data_eq, List.mem_flatMap] at hin
    obtain ⟨⟨s, offerings⟩, hp, hin⟩ := hin
    split at hin
    · exact absurd hin (List.not_mem_nil _)
    · next hE =>
      rw [List.mem_filterMap] at hin
      obtain ⟨item2, hi2, hEq⟩ := hin
      split at hEq
      · exact absurd hEq (by simp)
      · split at hEq
        · exact absurd hEq (by simp)
        · next hb =>
          have hinj := Option.some_injective _ hEq
          rw [ReportEntry.mk.injEq] at hinj
          obtain ⟨hs, hd⟩ := hinj
          have hitem2 : item2 = new_item := greendata_asdict_injective hd
          subst hs
          subst hitem2
          exact ⟨Bool.not_eq_true _ ▸ Bool.of_not_eq_true hE,
            Bool.of_not_eq_true hb⟩
  · rintro ⟨hne, hblocks⟩
    rw [compare_coffee_data_eq, List.mem_flatMap]
    refine ⟨(site_url, new_offerings), hmem, ?_⟩
    rw [if_neg (by simp [hne])]
    rw [List.mem_filterMap]
    exact ⟨new_item, hitem, by simp [hname, hblocks]⟩

theorem compare_new_record_iff_witness :
    (⟨"s", sampleZzzz.asdict⟩ : ReportEntry) ∈
      compare_coffee_data [("s", [sampleAaaa])] [("s", [sampleZzzz])] :=
  (compare_new_record_iff [("s", [sampleAaaa])] [("s", [sampleZzzz])] "s"
    [sampleZzzz] sampleZzzz (by decide) (by decide) (by decide)).mpr
    ⟨by decide, by decide⟩

/-- C1 counterexample: the reader found a latest file holding one named
record but no prior file at all; the claimed bootstrap would report that
record as new, but main_comparison simply skips the category
(lines 215-216) and reports nothing. -/
theorem main_comparison_no_prior_counterexample :
    truthyStr brazilSantos.name = true ∧
      main_comparison_category "sites" (some [("siteA", [brazilSantos])])
        none = [] :=
  ⟨by decide, rfl⟩

/-- C1 amended: when a latest snapshot file exists but no prior snapshot
file exists at all, the orchestrator reports nothing for the category;
the every-named-record-is-new bootstrap fires instead exactly when a prior
file exists but loads as an empty snapshot, and it then reports each named
record of the latest snapshot without any similarity evaluation. -/
theorem main_comparison_prior_policy (source_type : String)
    (latest_data : Snapshot) :
    main_comparison_category source_type (some latest_data) none = [] ∧
      (∀ e : CombinedEntry,
        e ∈ main_comparison_category source_type (some latest_data)
            (some []) ↔
          ∃ source_key offerings item,
            (source_key, offerings) ∈ latest_data ∧ item ∈ offerings ∧
              truthyStr item.name = true ∧
              e = ⟨source_type, source_key, item.asdict⟩) := by
  refine ⟨rfl, fun e => ?_⟩
  show e ∈ (latest_data.flatMap fun p =>
      p.2.filterMap fun item =>
        if truthyStr item.name then
          some ⟨source_type, p.1, item.asdict⟩
        else none) ↔ _
  rw [List.mem_flatMap]
  constructor
  · rintro ⟨⟨source_key, offerings⟩, hp, he⟩
    rw [List.mem_filterMap] at he
    obtain ⟨item, hItem, hEq⟩ := he
    split at hEq
    · next hname =>
      exact ⟨source_key, offerings, item, hp, hItem, hname,
        (Option.some_injective _ hEq).symm⟩
    · exact absurd hEq (by simp)
  · rintro ⟨source_key, offerings, item, hp, hItem, hname, rfl⟩
    refine ⟨(source_key, offerings), hp, ?_⟩
    rw [List.mem_filterMap]
    exact ⟨item, hItem, by simp [hname]⟩

theorem main_comparison_prior_policy_witness :
    main_comparison_category "sites" (some [("siteA", [brazilSantos])])
      (some []) = [⟨"sites", "siteA", brazilSantos.asdict⟩] ∧
      (⟨"sites", "siteA", brazilSantos.asdict⟩ : CombinedEntry) ∈
        main_comparison_category "sites" (some [("siteA", [brazilSantos])])
          (some []) :=
  ⟨by decide,
    ((main_comparison_prior_policy "sites" [("siteA", [brazilSantos])]).2
      ⟨"sites", "siteA", brazilSantos.asdict⟩).mpr
      ⟨"siteA", [brazilSantos], brazilSantos, by decide, by decide,
        by decide, rfl⟩⟩

/-! ### Loader lemmas -/

theorem dictFind_cons_self (key : String) (v : PyVal)
    (rest : List (String × PyVal)) :
    dictFind ((key, v) :: rest) key = some v := by
  simp [dictFind]

theorem dictFind_cons_ne (key k : String) (v : PyVal)
    (rest : List (String × PyVal)) (h : key ≠ k) :
    dictFind ((key, v) :: rest) k = dictFind rest k := by
  simp [dictFind, List.find?_cons, beq_eq_false_iff_ne.mpr h]

theorem dictGet_cons_ne (key k : String) (v : PyVal)
    (rest : List (String × PyVal)) (h : key ≠ k) :
    dictGet ((key, v) :: rest) k = dictGet rest k := by
  unfold dictGet
  rw [dictFind_cons_ne _ _ _ _ h]

theorem filterMap_asKwDict_filter (xs : List PyVal) :
    xs.filterMap asKwDict = (xs.filter PyVal.isDict).filterMap asKwDict := by
  induction xs with
  | nil => rfl
  | cons x xs ih => cases x <;> simp [asKwDict, PyVal.isDict, ih]

theorem qaEntries_cons_list (xs : List PyVal) (rest : List (String × PyVal)) :
    qaEntries (("quantity_available", PyVal.list xs) :: rest) =
      .ok (xs.filterMap asKwDict) := by
  unfold qaEntries
  rw [dictFind_cons_self]

theorem qaEntries_cons_ne (key : String) (v : PyVal)
    (rest : List (String × PyVal)) (h : key ≠ "quantity_available") :
    qaEntries ((key, v) :: rest) = qaEntries rest := by
  unfold qaEntries
  rw [dictFind_cons_ne _ _ _ _ h]

theorem sizeField_cons_ne (key : String) (v : PyVal)
    (rest : List (String × PyVal)) (h : key ≠ "size") :
    sizeField ((key, v) :: rest) = sizeField rest := by
  unfold sizeField dictGet
  rw [dictFind_cons_ne _ _ _ _ h]

theorem sizeField_cons_nondict (v : PyVal) (rest : List (String × PyVal))
    (h : v.isDict = false) :
    sizeField (("size", v) :: rest) = .ok none := by
  unfold sizeField dictGet
  rw [dictFind_cons_self]
  cases v <;> simp_all [PyVal.isDict]

theorem priceField_cons_ne (key : String) (v : PyVal)
    (rest : List (String × PyVal)) (h : key ≠ "price") :
    priceField ((key, v) :: rest) = priceField rest := by
  unfold priceField dictGet
  rw [dictFind_cons_ne _ _ _ _ h]

theorem priceField_cons_nondict (v : PyVal) (rest : List (String × PyVal))
    (h : v.isDict = false) :
    priceField (("price", v) :: rest) = .ok none := by
  unfold priceField dictGet
  rw [dictFind_cons_self]
  cases v <;> simp_all [PyVal.isDict]

/-- _dict_to_greendata only consults its argument through qaEntries,
sizeField, priceField and dictGet at the remaining field keys. -/
theorem dict_to_greendata_congr (d1 d2 : List (String × PyVal))
    (hq : qaEntries d1 = qaEntries d2)
    (hs : sizeField d1 = sizeField d2)
    (hp : priceField d1 = priceField d2)
    (hg : ∀ k, k ≠ "quantity_available" → k ≠ "size" → k ≠ "price" →
      dictGet d1 k = dictGet d2 k) :
    _dict_to_greendata d1 = _dict_to_greendata d2 := by
  have h1 := hg "name" (by decide) (by decide) (by decide)
  have h2 := hg "url" (by decide) (by decide) (by decide)
  have h3 := hg "importer" (by decide) (by decide) (by decide)
  have h4 := hg "farm" (by decide) (by decide) (by decide)
  have h5 := hg "country" (by decide) (by decide) (by decide)
  have h6 := hg "arrival" (by decide) (by decide) (by decide)
  have h7 := hg "cupping_notes" (by decide) (by decide) (by decide)
  have h8 := hg "variety" (by decide) (by decide) (by decide)
  have h9 := hg "added" (by decide) (by decide) (by decide)
  have h10 := hg "removed" (by decide) (by decide) (by decide)
  unfold _dict_to_greendata
  rw [hq, hs, hp]
  simp only [h1, h2, h3, h4, h5, h6, h7, h8, h9, h10]

/-- C3: the loader's tolerance of malformed input.  A missing file and an
unparseable file each yield the empty snapshot.  Non-object elements of a
warehouse-entry list are dropped without affecting the record; a non-object
size or price value is treated exactly as an absent one; non-object
elements of an offering list are dropped without affecting the load.  In
each case nothing fails and nothing else about the result changes. -/
theorem loader_malformed_tolerance :
    (load_coffee_data_from_file .missing = .ok [] ∧
      load_coffee_data_from_file .unparseable = .ok []) ∧
    (∀ rest xs,
      _dict_to_greendata (("quantity_available", PyVal.list xs) :: rest) =
        _dict_to_greendata
          (("quantity_available", PyVal.list (xs.filter PyVal.isDict)) :: rest)) ∧
    (∀ rest v, v.isDict = false →
      _dict_to_greendata (("size", v) :: rest) =
        _dict_to_greendata (("size", PyVal.null) :: rest)) ∧
    (∀ rest v, v.isDict = false →
      _dict_to_greendata (("price", v) :: rest) =
        _dict_to_greendata (("price", PyVal.null) :: rest)) ∧
    (∀ site items,
      load_coffee_data_from_file (.parsed (.dict [(site, PyVal.list items)])) =
        load_coffee_data_from_file
          (.parsed (.dict [(site, PyVal.list (items.filter PyVal.isDict))]))) := by
  refine ⟨⟨rfl, rfl⟩, fun rest xs => ?_, fun rest v hv => ?_,
    fun rest v hv => ?_, fun site items => ?_⟩
  · refine dict_to_greendata_congr _ _ ?_ ?_ ?_ ?_
    · rw [qaEntries_cons_list, qaEntries_cons_list, filterMap_asKwDict_filter]
    · rw [sizeField_cons_ne _ _ _ (by decide), sizeField_cons_ne _ _ _ (by decide)]
    · rw [priceField_cons_ne _ _ _ (by decide), priceField_cons_ne _ _ _ (by decide)]
    · intro k hk _ _
      rw [dictGet_cons_ne _ _ _ _ (Ne.symm hk), dictGet_cons_ne _ _ _ _ (Ne.symm hk)]
  · refine dict_to_greendata_congr _ _ ?_ ?_ ?_ ?_
    · rw [qaEntries_cons_ne _ _ _ (by decide), qaEntries_cons_ne _ _ _ (by decide)]
    · rw [sizeField_cons_nondict _ _ hv, sizeField_cons_nondict PyVal.null rest rfl]
    · rw [priceField_cons_ne _ _ _ (by decide), priceField_cons_ne _ _ _ (by decide)]
    · intro k _ hk _
      rw [dictGet_cons_ne _ _ _ _ (Ne.symm hk), dictGet_cons_ne _ _ _ _ (Ne.symm hk)]
  · refine dict_to_greendata_congr _ _ ?_ ?_ ?_ ?_
    · rw [qaEntries_cons_ne _ _ _ (by decide), qaEntries_cons_ne _ _ _ (by decide)]
    · rw [sizeField_cons_ne _ _ _ (by decide), sizeField_cons_ne _ _ _ (by decide)]
    · rw [priceField_cons_nondict _ _ hv, priceField_cons_nondict PyVal.null rest rfl]
    · intro k _ _ hk
      rw [dictGet_cons_ne _ _ _ _ (Ne.symm hk), dictGet_cons_ne _ _ _ _ (Ne.symm hk)]
  · simp only [load_coffee_data_from_file, List.mapM_cons, List.mapM_nil]
    rw [filterMap_asKwDict_filter]

theorem loader_malformed_tolerance_witness :
    PyVal.isDict (PyVal.str "twelve lbs") = false ∧
      _dict_to_greendata
          [("size", PyVal.str "twelve lbs"), ("name", PyVal.str "Kenya AA")] =
        _dict_to_greendata
          [("size", PyVal.null), ("name", PyVal.str "Kenya AA")] :=
  ⟨rfl, loader_malformed_tolerance.2.2.1 [("name", PyVal.str "Kenya AA")]
    (PyVal.str "twelve lbs") rfl⟩

end Ceto

